import Mathlib

/-!
Shallow embedding of the `micro_sf_client` crate, covering the
authenticated-query pipeline: `src/lib.rs` (`SFClient`, `Token`,
`QueryResponse`, `SFClientError`), `src/token.rs` (`TokenRequest`,
`AuthFailure`, `TokenError`) and `src/query.rs` (`QueryRequest`,
`QueryFailure`, `QueryError`).

HTTP bodies are modelled as abstract JSON values (`Json`); `serde_json`
deserialization of the concrete record types is modelled by structural
decoders (object with the required fields of the required types, unknown
fields ignored, a JSON number modelled as a mathematical integer).  The
network is modelled as an oracle `Nat → CallResult` giving the outcome of
the i-th outbound HTTP call made by the client; the client state threads
the call counter, the cached token, and a log of which kind of call
(authentication or query) was made.
-/

/-- Abstract JSON values (integers only for numbers; the claims under
study only involve integral numbers). -/
inductive Json where
  | null : Json
  | bool (b : Bool) : Json
  | num (n : Int) : Json
  | str (s : String) : Json
  | arr (xs : List Json) : Json
  | obj (fields : List (String × Json)) : Json
deriving Repr

/-- First field with the given key of a JSON object, as serde sees it. -/
def Json.getField : List (String × Json) → String → Option Json
  | [], _ => none
  | (k, v) :: rest, key => if k = key then some v else Json.getField rest key

/-- serde: a Rust `String` deserializes from a JSON string only. -/
def decodeString : Json → Option String
  | .str s => some s
  | _ => none

/-- serde: a Rust `bool` deserializes from a JSON boolean only. -/
def decodeBool : Json → Option Bool
  | .bool b => some b
  | _ => none

/-- serde: a Rust `u8` deserializes from a JSON integer in `[0, 255]`;
out-of-range numbers are a deserialization error. -/
def decodeU8 : Json → Option (Fin 256)
  | .num n => if h : 0 ≤ n ∧ n < 256 then some ⟨n.toNat, by omega⟩ else none
  | _ => none

/-- serde: `Vec<Value>` deserializes from any JSON array, elements kept
as opaque values. -/
def decodeValueList : Json → Option (List Json)
  | .arr xs => some xs
  | _ => none

/-- serde: `Vec<String>` deserializes from a JSON array of strings. -/
def decodeStringList : Json → Option (List String)
  | .arr xs => xs.mapM decodeString
  | _ => none

/-- Model of `Token` of `src/lib.rs` (identical in shape to `TokenResponse` of
`src/token.rs`): the credential returned by a successful OAuth2
password-grant exchange. -/
structure Token where
  access_token : String
  token_type : String
  instance_url : String
  signature : String
  issued_at : String
deriving Repr, DecidableEq

/-- Model of `TokenError` of `src/lib.rs` / `TokenErrorResponse` of
`src/token.rs`: the authentication error body. -/
structure TokenErrorResponse where
  error : String
  error_description : String
deriving Repr, DecidableEq

/-- serde deserialization of `Token`: a JSON object carrying the five
required string fields. -/
def decodeToken : Json → Option Token
  | .obj fs =>
    match Json.getField fs "access_token" >>= decodeString with
    | none => none
    | some access_token =>
      match Json.getField fs "token_type" >>= decodeString with
      | none => none
      | some token_type =>
        match Json.getField fs "instance_url" >>= decodeString with
        | none => none
        | some instance_url =>
          match Json.getField fs "signature" >>= decodeString with
          | none => none
          | some signature =>
            match Json.getField fs "issued_at" >>= decodeString with
            | none => none
            | some issued_at =>
              some ⟨access_token, token_type, instance_url, signature, issued_at⟩
  | _ => none

/-- serde deserialization of `TokenError` / `TokenErrorResponse`. -/
def decodeTokenError : Json → Option TokenErrorResponse
  | .obj fs =>
    match Json.getField fs "error" >>= decodeString with
    | none => none
    | some error =>
      match Json.getField fs "error_description" >>= decodeString with
      | none => none
      | some error_description => some ⟨error, error_description⟩
  | _ => none

/-- Model of `QueryResponse` of `src/lib.rs` and `src/query.rs`: the success shape
of a query.  `total_size` is a Rust `u8`, modelled as `Fin 256`. -/
structure QueryResponse where
  total_size : Fin 256
  done : Bool
  records : List Json
deriving Repr

/-- serde deserialization of `QueryResponse`. -/
def decodeQueryResponse : Json → Option QueryResponse
  | .obj fs =>
    match Json.getField fs "total_size" >>= decodeU8 with
    | none => none
    | some total_size =>
      match Json.getField fs "done" >>= decodeBool with
      | none => none
      | some done =>
        match Json.getField fs "records" >>= decodeValueList with
        | none => none
        | some records => some ⟨total_size, done, records⟩
  | _ => none

/-- serde serialization of `QueryResponse` to its wire shape (field
order as declared in the struct). -/
def encodeQueryResponse (r : QueryResponse) : Json :=
  .obj [("total_size", .num r.total_size.val),
        ("done", .bool r.done),
        ("records", .arr r.records)]

/-- Model of `reqwest::Error`, opaque to this crate; modelled as a tagged value. -/
structure ClientError where
  code : Nat
deriving Repr, DecidableEq

/-- Outcome of one outbound HTTP call: either a response with a status
code and a JSON body, or a transport-level failure. -/
inductive CallResult where
  | ok (status : Nat) (body : Json) : CallResult
  | netErr (e : ClientError) : CallResult
deriving Repr

/-- Kind of outbound call, for observing how many authentication and
query calls the client makes. -/
inductive NetEvent where
  | authCall : NetEvent
  | queryCall : NetEvent
deriving Repr, DecidableEq

/-- Model of `SFClientError` of `src/lib.rs`: the crate-level error taxonomy. -/
inductive SFClientError where
  | InvalidLoginUrl : SFClientError
  | ClientBuildFailure (e : ClientError) : SFClientError
  | TokenUnavailable : SFClientError
  | InvalidClientId : SFClientError
  | InvalidClientSecret : SFClientError
  | InvalidGrant : SFClientError
  | InvalidUser : SFClientError
  | OrgUnavailable : SFClientError
  | RateLimitExceeded : SFClientError
  | QueryFailure : SFClientError
  | QueryResponseParseFailure : SFClientError
  | Network (e : ClientError) : SFClientError
deriving Repr, DecidableEq

/-- Model of `API_BASE` of `src/lib.rs`. -/
def API_BASE : String := "services/data/v20.0/"

/-- The immutable configuration of an `SFClient` (`src/lib.rs`): the five
connection parameters and the attempt limit.  `attempt_limit` is a Rust
`u8`; the retry counter starts at 0 and is only incremented while it is
strictly below `attempt_limit`, so the `u8` arithmetic never overflows
and `Nat` models it exactly. -/
structure Config where
  login_url : String
  client_id : String
  client_secret : String
  username : String
  password : String
  attempt_limit : Nat
deriving Repr, DecidableEq

/-- The mutable state of an `SFClient` during a `query` call: the cached
token (`self.token`), plus the instrumentation needed to observe network
activity: `calls` indexes the behavior oracle (the number of outbound
calls made so far) and `log` records each call's kind in order. -/
structure St where
  token : Option Token
  calls : Nat
  log : List NetEvent
deriving Repr

/-- Classification of an authentication response body, mirroring the
body handling in `SFClient::authenticate` (`src/lib.rs` lines 118-133):
try the `Token` shape, else the `TokenError` shape (mapping its `error`
code string through the match at lines 122-129), else
`TokenUnavailable`. -/
def authBodyResult (content : Json) : Except SFClientError Token :=
  match decodeToken content with
  | some token => .ok token
  | none =>
    match decodeTokenError content with
    | some token_error =>
      .error (match token_error.error with
        | "invalid_client_id" => SFClientError.InvalidClientId
        | "invalid_client_credentials" => SFClientError.InvalidClientSecret
        | "invalid_grant" => SFClientError.InvalidGrant
        | "inactive_user" => SFClientError.InvalidUser
        | "inactive_org" => SFClientError.OrgUnavailable
        | "rate_limit_exceeded" => SFClientError.RateLimitExceeded
        | _ => SFClientError.TokenUnavailable)
    | none => .error SFClientError.TokenUnavailable

/-- Model of `SFClient::authenticate` (`src/lib.rs` lines 110-134): one outbound
POST (consuming one oracle slot, logged as an `authCall`); a transport
failure becomes `Network`, otherwise the body is classified by
`authBodyResult`; on success the parsed token is cached. -/
def authenticate (b : Nat → CallResult) (s : St) :
    Except SFClientError Unit × St :=
  let s1 : St := { s with calls := s.calls + 1, log := s.log ++ [.authCall] }
  match b s.calls with
  | .netErr e => (.error (.Network e), s1)
  | .ok _status body =>
    match authBodyResult body with
    | .ok token => (.ok (), { s1 with token := some token })
    | .error e => (.error e, s1)

/-- The observable content of a built query request: its URL and the
bearer token carried in the `Authorization` header. -/
structure Request where
  url : String
  bearer : String
deriving Repr, DecidableEq

/-- Model of `SFClient::build_request` (`src/lib.rs` lines 136-150): authenticate
if no token is cached, then build the GET request from the cached token,
concatenating `instance_url`, `API_BASE`, `"query?q="` and the query
text verbatim, with the access token as bearer credential. -/
def build_request (b : Nat → CallResult) (query : String) (s : St) :
    Except SFClientError Request × St :=
  match (if s.token.isNone then authenticate b s else (.ok (), s)) with
  | (.error e, s1) => (.error e, s1)
  | (.ok _, s1) =>
    match s1.token with
    | some token =>
      (.ok ⟨token.instance_url ++ API_BASE ++ "query?q=" ++ query,
            token.access_token⟩, s1)
    | none => (.error .TokenUnavailable, s1)

/-- Model of `SFClient::do_query` (`src/lib.rs` lines 152-167): build the request
(possibly authenticating), send it (consuming one oracle slot, logged as
a `queryCall`); status 200 parses the success shape or yields
`QueryResponseParseFailure`; status 401 clears the cached token and
yields `QueryFailure`; any other status yields `QueryFailure`. -/
def do_query (b : Nat → CallResult) (query : String) (s : St) :
    Except SFClientError QueryResponse × St :=
  match build_request b query s with
  | (.error e, s1) => (.error e, s1)
  | (.ok _request, s1) =>
    let s2 : St :=
      { s1 with calls := s1.calls + 1, log := s1.log ++ [.queryCall] }
    match b s1.calls with
    | .netErr e => (.error (.Network e), s2)
    | .ok status body =>
      if status = 200 then
        match decodeQueryResponse body with
        | some r => (.ok r, s2)
        | none => (.error .QueryResponseParseFailure, s2)
      else if status = 401 then
        (.error .QueryFailure, { s2 with token := none })
      else
        (.error .QueryFailure, s2)

/-- Recursion core of `SFClient::attempt_query`, indexed by the number
of retries still allowed (`remaining = attempt_limit - attempt`, so the
source's guard `attempt < attempt_limit` is exactly `remaining ≠ 0`):
run `do_query`; on failure, retry while retries remain, else return the
last observed failure. -/
def attempt_query_go (b : Nat → CallResult) (query : String) :
    Nat → St → Except SFClientError QueryResponse × St
  | remaining, s =>
    match do_query b query s with
    | (.ok r, s1) => (.ok r, s1)
    | (.error e, s1) =>
      match remaining with
      | 0 => (.error e, s1)
      | r + 1 => attempt_query_go b query r s1

/-- Model of `SFClient::attempt_query` (`src/lib.rs` lines 169-176), reindexed:
at attempt number `attempt` the remaining retry budget is
`attempt_limit - attempt` (truncated subtraction, so `attempt <
attempt_limit` iff the budget is nonzero, and incrementing `attempt`
decrements the budget). -/
def attempt_query (cfg : Config) (b : Nat → CallResult) (query : String)
    (s : St) (attempt : Nat) : Except SFClientError QueryResponse × St :=
  attempt_query_go b query (cfg.attempt_limit - attempt) s

/-- Initial client state: no cached token, no calls made. -/
def St.init : St := ⟨none, 0, []⟩

/-- Model of `SFClient::query` (`src/lib.rs` lines 178-180): run the bounded
retry loop starting at attempt 0, from the given state. -/
def SFClient.query (cfg : Config) (b : Nat → CallResult) (query : String)
    (s : St) : Except SFClientError QueryResponse × St :=
  attempt_query cfg b query s 0

/-- Model of `SFClient::new` (`src/lib.rs` lines 55-82): reject an empty login
URL with `InvalidLoginUrl` before anything else; otherwise build the
client configuration with the default `attempt_limit` of 3.  (The
`reqwest::Client` construction, which happens after the URL check and
involves no network traffic, is modelled as succeeding.) -/
def SFClient.new (login_url client_id client_secret username password :
    String) : Except SFClientError Config :=
  if login_url = "" then
    .error .InvalidLoginUrl
  else
    .ok ⟨login_url, client_id, client_secret, username, password, 3⟩

/-- Model of `SFClient::set_attempt_limit` (`src/lib.rs` lines 84-86). -/
def set_attempt_limit (cfg : Config) (attempt_limit : Nat) : Config :=
  { cfg with attempt_limit := attempt_limit }

/-- Construct a client and run one `query` call against the behavior
oracle `b`: the composition the CLI performs.  A construction error is
returned with the pristine initial state (no calls made). -/
def runQuery (login_url client_id client_secret username password
    query : String) (b : Nat → CallResult) :
    Except SFClientError QueryResponse × St :=
  match SFClient.new login_url client_id client_secret username password with
  | .error e => (.error e, St.init)
  | .ok cfg => SFClient.query cfg b query St.init

/-- Model of `AuthFailure` of `src/token.rs`: the closed authentication failure
taxonomy. -/
inductive AuthFailure where
  | InvalidClientId : AuthFailure
  | InvalidClientSecret : AuthFailure
  | InvalidGrant : AuthFailure
  | InvalidUser : AuthFailure
  | OrgUnavailable : AuthFailure
  | RateLimitExceeded : AuthFailure
  | TokenUnavailable : AuthFailure
deriving Repr, DecidableEq

/-- Model of `impl From<&str> for AuthFailure` (`src/token.rs` lines 53-65): the
pure mapping from an OAuth `error` code string to a failure kind. -/
def AuthFailure.fromStr (val : String) : AuthFailure :=
  match val with
  | "invalid_client_id" => .InvalidClientId
  | "invalid_client_credentials" => .InvalidClientSecret
  | "invalid_grant" => .InvalidGrant
  | "inactive_user" => .InvalidUser
  | "inactive_org" => .OrgUnavailable
  | "rate_limit_exceeded" => .RateLimitExceeded
  | _ => .TokenUnavailable

/-- The corresponding match in `SFClient::authenticate` (`src/lib.rs`
lines 122-129), mapping the same code strings into `SFClientError`. -/
def SFClientError.fromAuthCode (val : String) : SFClientError :=
  match val with
  | "invalid_client_id" => .InvalidClientId
  | "invalid_client_credentials" => .InvalidClientSecret
  | "invalid_grant" => .InvalidGrant
  | "inactive_user" => .InvalidUser
  | "inactive_org" => .OrgUnavailable
  | "rate_limit_exceeded" => .RateLimitExceeded
  | _ => .TokenUnavailable

/-- Model of `TokenError` of `src/token.rs`: outcome taxonomy of the standalone
token request module. -/
inductive TokenError where
  | AuthResponseParseFailure : TokenError
  | APIError (f : AuthFailure) : TokenError
  | Network (e : ClientError) : TokenError
deriving Repr, DecidableEq

namespace TokenRequest

/-- Model of `TokenRequest::send` (`src/token.rs` lines 105-119), as a function
of the transport outcome of its one outbound POST: a transport failure
becomes `Network`; otherwise the body (the HTTP status is ignored) is
tried as `TokenResponse`, then as `TokenErrorResponse` (whose `error`
code is mapped through `AuthFailure::from`), else
`AuthResponseParseFailure`. -/
def send (r : CallResult) : Except TokenError Token :=
  match r with
  | .netErr e => .error (.Network e)
  | .ok _status body =>
    match decodeToken body with
    | some token => .ok token
    | none =>
      match decodeTokenError body with
      | some token_error =>
        .error (.APIError (AuthFailure.fromStr token_error.error))
      | none => .error .AuthResponseParseFailure

end TokenRequest

/-- Model of `QueryFailure` of `src/query.rs` (lines 26-32): the API failure
record; `error_code` is a Rust `u16` marked `#[serde(skip_deserializing)]`,
so deserialization never reads it from the body and leaves it at its
`Default` value 0. -/
structure QueryFailure where
  message : String
  error_code : Nat
  fields : List String
deriving Repr, DecidableEq

/-- serde deserialization of `QueryFailure`: `message` and `fields` are
required; `error_code` is skipped and defaulted to 0. -/
def decodeQueryFailure : Json → Option QueryFailure
  | .obj fs =>
    match Json.getField fs "message" >>= decodeString with
    | none => none
    | some message =>
      match Json.getField fs "fields" >>= decodeStringList with
      | none => none
      | some fields => some ⟨message, 0, fields⟩
  | _ => none

/-- Model of `QueryError` of `src/query.rs` (lines 94-99). -/
inductive QueryError where
  | API (f : QueryFailure) : QueryError
  | QueryResponseParseFailure : QueryError
  | Network (e : ClientError) : QueryError
deriving Repr, DecidableEq

namespace QueryRequest

/-- Model of `API_BASE` of `src/query.rs` (line 8). -/
def API_BASE : String := "services/data/"

/-- Model of `QueryRequest::build_request` (`src/query.rs` lines 63-69): the GET
request URL is the concatenation of the endpoint, `API_BASE`, the
version, `"/query?q="` and the query text verbatim, with the token as
bearer credential. -/
def build_request (endpoint version query token : String) : Request :=
  ⟨endpoint ++ API_BASE ++ version ++ "/query?q=" ++ query, token⟩

/-- Model of `QueryRequest::send` (`src/query.rs` lines 71-91), as a function of
the transport outcome of its one outbound GET: a transport failure
becomes `Network`; on status 200 the body is parsed as the success shape
(else `QueryResponseParseFailure`); on any other status the body is
parsed as a `QueryFailure` record (else `QueryResponseParseFailure`) and
the transport-observed status code is merged into its `error_code`
field. -/
def send (r : CallResult) : Except QueryError QueryResponse :=
  match r with
  | .netErr e => .error (.Network e)
  | .ok status body =>
    if status = 200 then
      match decodeQueryResponse body with
      | some resp => .ok resp
      | none => .error .QueryResponseParseFailure
    else
      match decodeQueryFailure body with
      | some f => .error (.API { f with error_code := status })
      | none => .error .QueryResponseParseFailure

end QueryRequest

/-- Modelled from the spec (§4.2, §6): "the URL-escaped query text".
Standard percent-encoding of everything but unreserved characters, for
ASCII text; used only to compare the spec's wording against the URL the
source actually builds. -/
def specUrlEscapeChar (c : Char) : String :=
  if c.isAlphanum || c = '-' || c = '_' || c = '.' || c = '~' then
    String.singleton c
  else
    let hexDigit : Nat → Char := fun n =>
      if n < 10 then Char.ofNat (48 + n) else Char.ofNat (55 + n)
    "%" ++ String.singleton (hexDigit (c.toNat / 16)) ++
      String.singleton (hexDigit (c.toNat % 16))

/-- Modelled from the spec: percent-escape a whole query text. -/
def specUrlEscape (s : String) : String :=
  String.join (s.data.map specUrlEscapeChar)

/-- The failure `SFClient::authenticate` produces for a given call
outcome, or `none` when the call would authenticate successfully.  Used
to state hypotheses about always-failing backends. -/
def authErrOf : CallResult → Option SFClientError
  | .netErr e => some (.Network e)
  | .ok _status body =>
    match authBodyResult body with
    | .ok _ => none
    | .error e => some e

/-- Behavior of `authenticate` on a failing call outcome: the error of `authErrOf`
is returned, the token slot stays empty, one auth call is logged. -/
theorem authenticate_fail (b : Nat → CallResult) (c : Nat)
    (l : List NetEvent) (e : SFClientError)
    (h : authErrOf (b c) = some e) :
    authenticate b ⟨none, c, l⟩ = (.error e, ⟨none, c + 1, l ++ [.authCall]⟩) := by
  unfold authenticate
  cases hb : b c with
  | netErr e0 =>
    simp [authErrOf, hb] at h
    simp [h]
  | ok status body =>
    simp only [authErrOf, hb] at h
    cases habr : authBodyResult body with
    | ok t => simp [habr] at h
    | error e0 =>
      simp [habr] at h
      simp [habr, h]

/-- Behavior of `do_query` from a state with no cached token and a failing
authentication: the auth failure is returned before any query call. -/
theorem do_query_none_authfail (b : Nat → CallResult) (q : String)
    (c : Nat) (l : List NetEvent) (e : SFClientError)
    (h : authErrOf (b c) = some e) :
    do_query b q ⟨none, c, l⟩ = (.error e, ⟨none, c + 1, l ++ [.authCall]⟩) := by
  unfold do_query build_request
  simp [authenticate_fail b c l e h]

/-- Retry loop against a backend whose every call fails authentication,
starting with no cached token: with `k` retries still allowed, `k + 1`
attempts are made (one auth call each) and the failure classified from
the last consumed call is returned. -/
theorem attempt_query_go_authfail (b : Nat → CallResult) (q : String)
    (e : Nat → SFClientError) (he : ∀ i, authErrOf (b i) = some (e i)) :
    ∀ (k c : Nat) (l : List NetEvent),
      attempt_query_go b q k ⟨none, c, l⟩ =
        (.error (e (c + k)),
         ⟨none, c + k + 1, l ++ List.replicate (k + 1) .authCall⟩) := by
  intro k
  induction k with
  | zero =>
    intro c l
    unfold attempt_query_go
    simp [do_query_none_authfail b q c l (e c) (he c)]
  | succ k ih =>
    intro c l
    unfold attempt_query_go
    simp only [do_query_none_authfail b q c l (e c) (he c)]
    rw [ih (c + 1) (l ++ [NetEvent.authCall])]
    simp only [List.replicate_succ]
    have harith : c + 1 + k = c + (k + 1) := by omega
    rw [harith, List.append_assoc]
    simp

/-- A mock OAuth error body, shaped like the `auth_err` fixture of the
crate's tests: `{"error": code, "error_description": "mock error"}`. -/
def errBody (code : String) : Json :=
  .obj [("error", .str code), ("error_description", .str "mock error")]

/-- Claim C1. With `attempt_limit = N` and a backend whose every call
fails authentication, an external `query` call makes exactly `N + 1`
execution attempts, each consisting of exactly one authentication call
(the log is exactly `N + 1` `authCall`s, no query call), and returns the
failure observed on the last attempt itself — there is no separate
"retries exhausted" error kind. -/
theorem query_exhausts_attempts_on_auth_failure (cfg : Config)
    (b : Nat → CallResult) (q : String) (e : Nat → SFClientError)
    (he : ∀ i, authErrOf (b i) = some (e i)) :
    SFClient.query cfg b q St.init =
      (.error (e cfg.attempt_limit),
       ⟨none, cfg.attempt_limit + 1,
        List.replicate (cfg.attempt_limit + 1) .authCall⟩) := by
  unfold SFClient.query attempt_query St.init
  rw [Nat.sub_zero]
  have h := attempt_query_go_authfail b q e he cfg.attempt_limit 0 []
  simpa using h

/-- Witness for C1 at `N = 5` (the spec's own example): an
always-`invalid_grant` backend yields 6 authentication calls and the
final `InvalidGrant` failure. -/
theorem query_exhausts_attempts_on_auth_failure_witness :
    SFClient.query ⟨"L", "id", "secret", "user", "pass", 5⟩
        (fun _ => .ok 200 (errBody "invalid_grant")) "tq" St.init =
      (.error .InvalidGrant, ⟨none, 6, List.replicate 6 .authCall⟩) := by
  have h := query_exhausts_attempts_on_auth_failure
    ⟨"L", "id", "secret", "user", "pass", 5⟩
    (fun _ => .ok 200 (errBody "invalid_grant")) "tq"
    (fun _ => .InvalidGrant) (fun _ => rfl)
  simpa using h

/-- Whether a call outcome is a response with HTTP status 401. -/
def CallResult.is401 : CallResult → Bool
  | .ok status _ => status == 401
  | .netErr _ => false

/-- Behavior of `build_request` with a cached token performs no network call and
returns the request built from that token. -/
theorem build_request_some (b : Nat → CallResult) (q : String) (t : Token)
    (c : Nat) (l : List NetEvent) :
    build_request b q ⟨some t, c, l⟩ =
      (.ok ⟨t.instance_url ++ API_BASE ++ "query?q=" ++ q, t.access_token⟩,
       ⟨some t, c, l⟩) := rfl

/-- Behavior of `do_query` with a cached token, fully cased on the outcome of the
one query call it makes. -/
theorem do_query_some (b : Nat → CallResult) (q : String) (t : Token)
    (c : Nat) (l : List NetEvent) :
    do_query b q ⟨some t, c, l⟩ =
      match b c with
      | .netErr e =>
        (.error (.Network e), ⟨some t, c + 1, l ++ [.queryCall]⟩)
      | .ok status body =>
        if status = 200 then
          match decodeQueryResponse body with
          | some r => (.ok r, ⟨some t, c + 1, l ++ [.queryCall]⟩)
          | none => (.error .QueryResponseParseFailure,
                     ⟨some t, c + 1, l ++ [.queryCall]⟩)
        else if status = 401 then
          (.error .QueryFailure, ⟨none, c + 1, l ++ [.queryCall]⟩)
        else
          (.error .QueryFailure, ⟨some t, c + 1, l ++ [.queryCall]⟩) := rfl

/-- Unfolding of the retry loop with at least one retry remaining. -/
theorem attempt_query_go_succ (b : Nat → CallResult) (q : String)
    (k : Nat) (s : St) :
    attempt_query_go b q (k + 1) s =
      match do_query b q s with
      | (.ok r, s1) => (.ok r, s1)
      | (.error _, s1) => attempt_query_go b q k s1 := by
  conv_lhs => unfold attempt_query_go

/-- One retry step of `attempt_query`: on any failed attempt with
attempts remaining, the loop re-enters at the next attempt number from
the post-attempt state. -/
theorem attempt_query_retry_step (cfg : Config) (b : Nat → CallResult)
    (q : String) (s : St) (attempt : Nat) (e : SFClientError)
    (herr : (do_query b q s).1 = .error e)
    (hlt : attempt < cfg.attempt_limit) :
    attempt_query cfg b q s attempt =
      attempt_query cfg b q (do_query b q s).2 (attempt + 1) := by
  obtain ⟨k, hk⟩ : ∃ k, cfg.attempt_limit - attempt = k + 1 :=
    ⟨cfg.attempt_limit - attempt - 1, by omega⟩
  have hk1 : cfg.attempt_limit - (attempt + 1) = k := by omega
  unfold attempt_query
  rw [hk, hk1, attempt_query_go_succ]
  cases hdq : do_query b q s with
  | mk r s1 =>
    rw [hdq] at herr
    cases r with
    | ok v => simp at herr
    | error e0 => simp

/-- Claim C2. For a query attempt carried out with a cached credential:
the credential is evicted exactly when the query call comes back with
HTTP status 401; on every other outcome (success, non-401 API failure,
network failure, parse failure) it is left unchanged; and any failed
attempt — 401 or not — is retried while the attempt count is below
`attempt_limit`. -/
theorem token_evicted_iff_401 (b : Nat → CallResult) (q : String)
    (t : Token) (c : Nat) (l : List NetEvent) :
    ((do_query b q ⟨some t, c, l⟩).2.token = none ↔ (b c).is401 = true) ∧
    ((b c).is401 = false → (do_query b q ⟨some t, c, l⟩).2.token = some t) ∧
    (∀ (cfg : Config) (attempt : Nat) (e : SFClientError),
      (do_query b q ⟨some t, c, l⟩).1 = .error e →
      attempt < cfg.attempt_limit →
      attempt_query cfg b q ⟨some t, c, l⟩ attempt =
        attempt_query cfg b q (do_query b q ⟨some t, c, l⟩).2 (attempt + 1)) := by
  refine ⟨?_, ?_, ?_⟩
  · rw [do_query_some]
    cases hb : b c with
    | netErr e => simp [CallResult.is401]
    | ok status body =>
      by_cases h200 : status = 200
      · subst h200
        cases hdec : decodeQueryResponse body <;>
          simp [CallResult.is401, hdec]
      · by_cases h401 : status = 401
        · subst h401
          simp [CallResult.is401]
        · simp [CallResult.is401, h200, h401]
  · rw [do_query_some]
    cases hb : b c with
    | netErr e => simp [CallResult.is401]
    | ok status body =>
      intro h401
      simp [CallResult.is401] at h401
      by_cases h200 : status = 200
      · subst h200
        cases hdec : decodeQueryResponse body <;> simp [hdec]
      · simp [h200, h401]
  · intro cfg attempt e herr hlt
    exact attempt_query_retry_step cfg b q ⟨some t, c, l⟩ attempt e herr hlt

/-- Witness for C2: a 401 response evicts the concrete cached token and
the failed attempt is retried (attempt 0 of limit 3). -/
theorem token_evicted_iff_401_witness :
    (do_query (fun _ => CallResult.ok 401 (Json.obj [])) "q"
        ⟨some ⟨"T", "Bearer", "I/", "S", "0"⟩, 0, []⟩).2.token = none ∧
    attempt_query ⟨"L", "i", "s", "u", "p", 3⟩
        (fun _ => CallResult.ok 401 (Json.obj [])) "q"
        ⟨some ⟨"T", "Bearer", "I/", "S", "0"⟩, 0, []⟩ 0 =
      attempt_query ⟨"L", "i", "s", "u", "p", 3⟩
        (fun _ => CallResult.ok 401 (Json.obj [])) "q"
        (do_query (fun _ => CallResult.ok 401 (Json.obj [])) "q"
          ⟨some ⟨"T", "Bearer", "I/", "S", "0"⟩, 0, []⟩).2 1 := by
  refine ⟨?_, ?_⟩
  · exact (token_evicted_iff_401 (fun _ => CallResult.ok 401 (Json.obj []))
      "q" ⟨"T", "Bearer", "I/", "S", "0"⟩ 0 []).1.mpr rfl
  · exact (token_evicted_iff_401 (fun _ => CallResult.ok 401 (Json.obj []))
      "q" ⟨"T", "Bearer", "I/", "S", "0"⟩ 0 []).2.2
      ⟨"L", "i", "s", "u", "p", 3⟩ 0 .QueryFailure rfl (by decide)

/-- Claim C3. The OAuth `error` code string is mapped to a failure kind by
a pure function, in both `AuthFailure::from` (`src/token.rs`) and the
corresponding match in `SFClient::authenticate` (`src/lib.rs`): the six
recognized codes map to six pairwise distinct kinds exactly as the §4.1
table states, and every unrecognized code maps to `TokenUnavailable`. -/
theorem auth_code_mapping :
    (AuthFailure.fromStr "invalid_client_id" = .InvalidClientId ∧
     AuthFailure.fromStr "invalid_client_credentials" = .InvalidClientSecret ∧
     AuthFailure.fromStr "invalid_grant" = .InvalidGrant ∧
     AuthFailure.fromStr "inactive_user" = .InvalidUser ∧
     AuthFailure.fromStr "inactive_org" = .OrgUnavailable ∧
     AuthFailure.fromStr "rate_limit_exceeded" = .RateLimitExceeded) ∧
    (SFClientError.fromAuthCode "invalid_client_id" = .InvalidClientId ∧
     SFClientError.fromAuthCode "invalid_client_credentials" = .InvalidClientSecret ∧
     SFClientError.fromAuthCode "invalid_grant" = .InvalidGrant ∧
     SFClientError.fromAuthCode "inactive_user" = .InvalidUser ∧
     SFClientError.fromAuthCode "inactive_org" = .OrgUnavailable ∧
     SFClientError.fromAuthCode "rate_limit_exceeded" = .RateLimitExceeded) ∧
    ([AuthFailure.InvalidClientId, .InvalidClientSecret, .InvalidGrant,
      .InvalidUser, .OrgUnavailable, .RateLimitExceeded].Pairwise (· ≠ ·)) ∧
    (∀ s : String,
      s ≠ "invalid_client_id" → s ≠ "invalid_client_credentials" →
      s ≠ "invalid_grant" → s ≠ "inactive_user" → s ≠ "inactive_org" →
      s ≠ "rate_limit_exceeded" →
      AuthFailure.fromStr s = .TokenUnavailable ∧
      SFClientError.fromAuthCode s = .TokenUnavailable) := by
  refine ⟨⟨rfl, rfl, rfl, rfl, rfl, rfl⟩, ⟨rfl, rfl, rfl, rfl, rfl, rfl⟩,
    by decide, ?_⟩
  intro s h1 h2 h3 h4 h5 h6
  constructor
  · unfold AuthFailure.fromStr
    split <;> simp_all
  · unfold SFClientError.fromAuthCode
    split <;> simp_all

/-- Witness for C3: the unrecognized code `expired_token` (the code the
tests' query-error fixture uses) maps to `TokenUnavailable` in both
mappings. -/
theorem auth_code_mapping_witness :
    AuthFailure.fromStr "expired_token" = .TokenUnavailable ∧
    SFClientError.fromAuthCode "expired_token" = .TokenUnavailable :=
  auth_code_mapping.2.2.2 "expired_token" (by decide) (by decide)
    (by decide) (by decide) (by decide) (by decide)

/-- Fact: `QueryFailure` deserialization never reads `error_code` from the
body (`#[serde(skip_deserializing)]`): it is always the default 0. -/
theorem decodeQueryFailure_error_code (j : Json) (f : QueryFailure)
    (h : decodeQueryFailure j = some f) : f.error_code = 0 := by
  cases j with
  | obj fs =>
    simp only [decodeQueryFailure] at h
    split at h
    · exact Option.noConfusion h
    · split at h
      · exact Option.noConfusion h
      · injection h with h2
        rw [← h2]
  | null => exact Option.noConfusion h
  | bool b => exact Option.noConfusion h
  | num n => exact Option.noConfusion h
  | str s => exact Option.noConfusion h
  | arr xs => exact Option.noConfusion h

/-- Claim C4, counterexample. The claim says every query exchange with a
non-200 status parses the body as an API failure record, merges the
transport status in, and returns an API failure carrying that record
(parse-failure error if the body is unparseable).  In
`SFClient::do_query` (`src/lib.rs` lines 152-167) this is false at the
explicit input below: the status-400 body parses as a failure record
(`"Bad field"` on field `"Id"`), yet `do_query` returns the unit
`SFClientError.QueryFailure` — which carries no record and no status —
and returns that same unit kind for an unparseable body too, so no
parse, no merge, and no parse-failure distinction happen on that path. -/
theorem do_query_non200_ignores_body_cex :
    decodeQueryFailure (Json.obj [("message", .str "Bad field"),
        ("fields", .arr [.str "Id"])]) = some ⟨"Bad field", 0, ["Id"]⟩ ∧
    do_query (fun _ => .ok 400 (Json.obj [("message", .str "Bad field"),
        ("fields", .arr [.str "Id"])])) "q"
        ⟨some ⟨"T", "Bearer", "I/", "S", "0"⟩, 0, []⟩ =
      (.error .QueryFailure,
       ⟨some ⟨"T", "Bearer", "I/", "S", "0"⟩, 1, [.queryCall]⟩) ∧
    do_query (fun _ => .ok 400 (Json.obj [])) "q"
        ⟨some ⟨"T", "Bearer", "I/", "S", "0"⟩, 0, []⟩ =
      (.error .QueryFailure,
       ⟨some ⟨"T", "Bearer", "I/", "S", "0"⟩, 1, [.queryCall]⟩) :=
  ⟨rfl, rfl, rfl⟩

/-- Claim C4, amended. Only `QueryRequest::send` (`src/query.rs`)
handles a non-200 response as the claim says: the body is parsed as an
API failure record (message plus implicated field names — the record as
parsed always has `error_code = 0`, i.e. the body never supplies the
status), the transport-observed status code is merged into the record,
and the result is the `API` failure carrying the merged record, with a
body that does not parse as a failure record yielding the distinct
`QueryResponseParseFailure` error instead.  `SFClient::do_query`
(`src/lib.rs`), by contrast, answers every non-200 status with the unit
`QueryFailure` error, never parsing the body, merging the status, or
distinguishing parse failures. -/
theorem non200_merges_status_into_failure (status : Nat) (body : Json)
    (hst : status ≠ 200) :
    (∀ f : QueryFailure, decodeQueryFailure body = some f →
      f.error_code = 0 ∧
      QueryRequest.send (.ok status body) =
        .error (.API ⟨f.message, status, f.fields⟩)) ∧
    (decodeQueryFailure body = none →
      QueryRequest.send (.ok status body) =
        .error .QueryResponseParseFailure) ∧
    (∀ (b : Nat → CallResult) (q : String) (t : Token) (c : Nat)
       (l : List NetEvent), b c = .ok status body →
      (do_query b q ⟨some t, c, l⟩).1 = .error .QueryFailure) := by
  refine ⟨?_, ?_, ?_⟩
  · intro f hf
    refine ⟨decodeQueryFailure_error_code body f hf, ?_⟩
    simp only [QueryRequest.send]
    rw [if_neg hst, hf]
  · intro hf
    simp only [QueryRequest.send]
    rw [if_neg hst, hf]
  · intro b q t c l hb
    rw [do_query_some, hb]
    by_cases h401 : status = 401
    · subst h401
      simp
    · simp [hst, h401]

/-- Witness for the amended C4 at status 400 with a parseable failure
body, at status 500 with an unparseable one, and on the `do_query` path
at status 400. -/
theorem non200_merges_status_into_failure_witness :
    QueryRequest.send (.ok 400
        (Json.obj [("message", .str "Bad field"),
                   ("fields", .arr [.str "Id"])])) =
      .error (.API ⟨"Bad field", 400, ["Id"]⟩) ∧
    QueryRequest.send (.ok 500 (Json.obj [])) =
      .error .QueryResponseParseFailure ∧
    (do_query (fun _ => .ok 400 (Json.obj [])) "q"
        ⟨some ⟨"T", "Bearer", "I/", "S", "0"⟩, 0, []⟩).1 =
      .error .QueryFailure := by
  refine ⟨?_, ?_, ?_⟩
  · exact ((non200_merges_status_into_failure 400
      (Json.obj [("message", .str "Bad field"), ("fields", .arr [.str "Id"])])
      (by decide)).1 ⟨"Bad field", 0, ["Id"]⟩ rfl).2
  · exact (non200_merges_status_into_failure 500 (Json.obj [])
      (by decide)).2.1 rfl
  · exact (non200_merges_status_into_failure 400 (Json.obj [])
      (by decide)).2.2 (fun _ => .ok 400 (Json.obj [])) "q"
      ⟨"T", "Bearer", "I/", "S", "0"⟩ 0 [] rfl

/-- Claim C5, counterexample. The claim says an authentication body that
parses as neither shape yields a failure kind "never shared with the
recognized or unrecognized-code authentication failures".  In
`SFClient::authenticate` (`src/lib.rs`), the explicit input `{}` parses
as neither shape, yet is classified as `TokenUnavailable` — exactly the
kind an unrecognized error code (here `"brand_new_code"`) also gets, so
the kind IS shared there. -/
theorem auth_parse_failure_kind_shared_cex :
    decodeToken (Json.obj []) = none ∧
    decodeTokenError (Json.obj []) = none ∧
    authBodyResult (Json.obj []) = .error SFClientError.TokenUnavailable ∧
    authBodyResult (errBody "brand_new_code") =
      .error SFClientError.TokenUnavailable :=
  ⟨rfl, rfl, rfl, rfl⟩

/-- Claim C5, amended. For every authentication response body parsing as
neither the credential shape nor the error-record shape:
`TokenRequest::send` (`src/token.rs`) returns the distinct
`AuthResponseParseFailure` kind — never a success and never an
`APIError` kind — while `SFClient::authenticate` (`src/lib.rs`) instead
returns `TokenUnavailable`, the same kind used for unrecognized error
codes (still never a success). -/
theorem auth_parse_failure_kinds (status : Nat) (body : Json)
    (ht : decodeToken body = none) (he : decodeTokenError body = none) :
    TokenRequest.send (.ok status body) =
      .error .AuthResponseParseFailure ∧
    (∀ f : AuthFailure,
      TokenError.AuthResponseParseFailure ≠ TokenError.APIError f) ∧
    authBodyResult body = .error SFClientError.TokenUnavailable := by
  refine ⟨?_, fun f => by simp, ?_⟩
  · simp only [TokenRequest.send]
    rw [ht, he]
  · simp only [authBodyResult]
    rw [ht, he]

/-- Witness for the amended C5 at the body `{}` with status 200. -/
theorem auth_parse_failure_kinds_witness :
    TokenRequest.send (.ok 200 (Json.obj [])) =
      .error .AuthResponseParseFailure ∧
    authBodyResult (Json.obj []) = .error SFClientError.TokenUnavailable :=
  ⟨(auth_parse_failure_kinds 200 (Json.obj []) rfl rfl).1,
   (auth_parse_failure_kinds 200 (Json.obj []) rfl rfl).2.2⟩

/-- Claim C6. When the login URL is the empty string, constructing the
client and querying reports the configuration-class `InvalidLoginUrl`
error with the network state untouched: zero outbound calls (`calls =
0`, empty log) regardless of the backend's behavior, and no retry loop
is entered (the result does not depend on the behavior oracle at all). -/
theorem empty_login_url_no_network (login_url client_id client_secret
    username password q : String) (b : Nat → CallResult)
    (hurl : login_url = "") :
    runQuery login_url client_id client_secret username password q b =
      (.error .InvalidLoginUrl, ⟨none, 0, []⟩) := by
  subst hurl
  rfl

/-- Witness for C6: empty URL, arbitrary other parameters, a backend
that would answer every call. -/
theorem empty_login_url_no_network_witness :
    runQuery "" "c_id" "c_secret" "user" "pass" "q"
        (fun _ => .ok 200 (Json.obj [])) =
      (.error .InvalidLoginUrl, ⟨none, 0, []⟩) :=
  empty_login_url_no_network "" "c_id" "c_secret" "user" "pass" "q"
    (fun _ => .ok 200 (Json.obj [])) rfl

/-- Claim C7, counterexample. The claim says the request URL ends in the
URL-escaped query text.  The source concatenates the query text
verbatim: for the query `"a b"` the URL built by
`SFClient::build_request` contains the raw space, not the escaped
`"a%20b"` that the spec-modelled URL-escape produces. -/
theorem query_url_not_escaped_cex :
    (build_request (fun _ => CallResult.netErr ⟨0⟩) "a b"
        ⟨some ⟨"tok", "Bearer", "https://inst/", "sig", "0"⟩, 0, []⟩).1 =
      .ok ⟨"https://inst/services/data/v20.0/query?q=a b", "tok"⟩ ∧
    specUrlEscape "a b" = "a%20b" ∧
    "https://inst/services/data/v20.0/query?q=a b" ≠
      "https://inst/services/data/v20.0/query?q=" ++ specUrlEscape "a b" := by
  refine ⟨rfl, by decide, by decide⟩

/-- Claim C7, amended. For every cached credential and query text, the
query request URL is the credential's `instance_url` concatenated with
the fixed query-service path segment and the query text **verbatim** (no
URL escaping is performed by this code — escaping, if any, is left to
the HTTP library), and the request carries the access token as the
bearer credential; likewise for `QueryRequest::build_request` in
`src/query.rs` with its endpoint, path and version. -/
theorem query_url_raw_concat (b : Nat → CallResult) (q : String)
    (t : Token) (c : Nat) (l : List NetEvent) :
    build_request b q ⟨some t, c, l⟩ =
      (.ok ⟨t.instance_url ++ API_BASE ++ "query?q=" ++ q, t.access_token⟩,
       ⟨some t, c, l⟩) ∧
    (∀ endpoint version token : String,
      QueryRequest.build_request endpoint version q token =
        ⟨endpoint ++ QueryRequest.API_BASE ++ version ++ "/query?q=" ++ q,
         token⟩) :=
  ⟨build_request_some b q t c l, fun _ _ _ => rfl⟩

/-- A mock successful authentication body. -/
def tokBody : Json :=
  .obj [("access_token", .str "T"), ("token_type", .str "Bearer"),
        ("instance_url", .str "https://inst/"), ("signature", .str "S"),
        ("issued_at", .str "1")]

/-- A mock successful query body: `total_size = 1`, `done = true`, one
record `{"id": "12345"}` (the tests' `query_success` fixture). -/
def succBody : Json :=
  .obj [("total_size", .num 1), ("done", .bool true),
        ("records", .arr [.obj [("id", .str "12345")]])]

/-- A backend whose first call fails authentication with
`invalid_grant`, whose second call authenticates successfully, and whose
later calls answer queries successfully. -/
def authFailThenOk : Nat → CallResult
  | 0 => .ok 200 (errBody "invalid_grant")
  | 1 => .ok 200 tokBody
  | _ => .ok 200 succBody

/-- Claim C8, counterexample. The claim says an initial authentication
failure is propagated to the caller immediately, without being retried.
Concretely: with `attempt_limit = 1`, no cached credential, and a
backend whose first authentication fails with `invalid_grant`, the
external call does **not** return that failure — it retries,
re-authenticates (two auth calls logged) and returns the query success. -/
theorem initial_auth_failure_retried_cex :
    authErrOf (authFailThenOk 0) = some SFClientError.InvalidGrant ∧
    SFClient.query ⟨"L", "i", "s", "u", "p", 1⟩ authFailThenOk "q" St.init =
      (.ok ⟨1, true, [Json.obj [("id", Json.str "12345")]]⟩,
       ⟨some ⟨"T", "Bearer", "https://inst/", "S", "1"⟩, 3,
        [.authCall, .authCall, .queryCall]⟩) :=
  ⟨rfl, rfl⟩

/-- Claim C8, amended. An authentication failure on the very first attempt
of an external query call (no cached credential) goes through the same
bounded retry path as every other failure: it is returned to the caller
immediately only when `attempt_limit = 0`; when `attempt_limit ≥ 1` the
call continues as a retry at attempt 1 (the failed attempt, one auth
call, having been consumed from the budget), which re-triggers
authentication. -/
theorem initial_auth_failure_bounded_retry (cfg : Config)
    (b : Nat → CallResult) (q : String) (e : SFClientError)
    (h : authErrOf (b 0) = some e) :
    (cfg.attempt_limit = 0 →
      SFClient.query cfg b q St.init =
        (.error e, ⟨none, 1, [.authCall]⟩)) ∧
    (1 ≤ cfg.attempt_limit →
      SFClient.query cfg b q St.init =
        attempt_query cfg b q ⟨none, 1, [.authCall]⟩ 1) := by
  have hdq := do_query_none_authfail b q 0 [] e h
  constructor
  · intro h0
    unfold SFClient.query attempt_query St.init
    rw [h0]
    unfold attempt_query_go
    rw [hdq]
    simp
  · intro h1
    obtain ⟨k, hk⟩ : ∃ k, cfg.attempt_limit - 0 = k + 1 :=
      ⟨cfg.attempt_limit - 1, by omega⟩
    have hk1 : cfg.attempt_limit - 1 = k := by omega
    unfold SFClient.query attempt_query St.init
    rw [hk, hk1, attempt_query_go_succ, hdq]
    simp

/-- Witness for the amended C8: with `attempt_limit = 0` the initial
`InvalidGrant` is returned directly; with `attempt_limit = 1` the call
continues as attempt 1. -/
theorem initial_auth_failure_bounded_retry_witness :
    SFClient.query ⟨"L", "i", "s", "u", "p", 0⟩
        (fun _ => .ok 200 (errBody "invalid_grant")) "q" St.init =
      (.error .InvalidGrant, ⟨none, 1, [.authCall]⟩) ∧
    SFClient.query ⟨"L", "i", "s", "u", "p", 1⟩ authFailThenOk "q" St.init =
      attempt_query ⟨"L", "i", "s", "u", "p", 1⟩ authFailThenOk "q"
        ⟨none, 1, [.authCall]⟩ 1 :=
  ⟨(initial_auth_failure_bounded_retry ⟨"L", "i", "s", "u", "p", 0⟩
      (fun _ => .ok 200 (errBody "invalid_grant")) "q" .InvalidGrant rfl).1
      rfl,
   (initial_auth_failure_bounded_retry ⟨"L", "i", "s", "u", "p", 1⟩
      authFailThenOk "q" .InvalidGrant rfl).2 (by decide)⟩

/-- Claim C9. Round-trip: every `QueryResponse` success value (any `u8`
total count, completion flag, and ordered record sequence, including the
empty one), serialized to its wire shape and parsed back, yields the
original value. -/
theorem query_response_roundtrip (r : QueryResponse) :
    decodeQueryResponse (encodeQueryResponse r) = some r := by
  obtain ⟨ts, d, rs⟩ := r
  simp only [encodeQueryResponse, decodeQueryResponse, Json.getField]
  norm_num
  simp only [decodeU8, decodeBool, decodeValueList, Option.bind_some]
  rw [dif_pos ⟨Int.ofNat_nonneg ts.val, by exact_mod_cast ts.isLt⟩]
  simp

/-- Claim C10. The success outcome's total count is a `u8` (every
representable `total_size` is below 256), so an HTTP 200 query response
whose body carries a `total_size` greater than 255 fails to parse as a
success, and both `QueryRequest::send` and `SFClient::do_query` return
the response-parse-failure error for it rather than a success (the
cached credential staying in place). -/
theorem total_size_overflow_parse_failure (fs : List (String × Json))
    (n : Int) (hget : Json.getField fs "total_size" = some (.num n))
    (hn : 255 < n) :
    (∀ r : QueryResponse, (r.total_size : Nat) < 256) ∧
    decodeQueryResponse (.obj fs) = none ∧
    QueryRequest.send (.ok 200 (.obj fs)) =
      .error .QueryResponseParseFailure ∧
    (∀ (b : Nat → CallResult) (q : String) (t : Token) (c : Nat)
       (l : List NetEvent), b c = .ok 200 (.obj fs) →
      do_query b q ⟨some t, c, l⟩ =
        (.error .QueryResponseParseFailure,
         ⟨some t, c + 1, l ++ [.queryCall]⟩)) := by
  have hu8 : decodeU8 (.num n) = none := by
    simp only [decodeU8]
    rw [dif_neg]
    omega
  have hdec : decodeQueryResponse (.obj fs) = none := by
    simp only [decodeQueryResponse, hget]
    rw [show (some (Json.num n) >>= decodeU8) = decodeU8 (.num n) from rfl,
      hu8]
  refine ⟨fun r => r.total_size.isLt, hdec, ?_, ?_⟩
  · simp only [QueryRequest.send]
    simp [hdec]
  · intro b q t c l hb
    rw [do_query_some, hb]
    simp [hdec]

/-- Witness for C10 at `total_size = 256` with the other fields present
and well-formed. -/
theorem total_size_overflow_parse_failure_witness :
    decodeQueryResponse (.obj [("total_size", .num 256),
        ("done", .bool true), ("records", .arr [])]) = none ∧
    QueryRequest.send (.ok 200 (.obj [("total_size", .num 256),
        ("done", .bool true), ("records", .arr [])])) =
      .error .QueryResponseParseFailure :=
  ⟨(total_size_overflow_parse_failure
      [("total_size", .num 256), ("done", .bool true), ("records", .arr [])]
      256 rfl (by decide)).2.1,
   (total_size_overflow_parse_failure
      [("total_size", .num 256), ("done", .bool true), ("records", .arr [])]
      256 rfl (by decide)).2.2.1⟩
